import Mathlib

/-!
Verification of the p2vn scene-orchestration engine.

This file gives a shallow embedding of the core of the repository —
the Zustand game store (`stores/gameStore.ts`), the tool dispatcher
(`core/ToolExecutor.ts`), the turn loop and scene lifecycle of the
orchestrator (`core/GameEngine.ts`), the prompt assembler
(`core/PromptGenerator.ts`), and the store-facing part of the
presentation handler (`components/SceneView.tsx`) — and proves the
behavioural properties stated in the specification against it.

JavaScript idioms are modelled explicitly: possibly-absent values are
`Option`s, thrown exceptions are `Except.error`, object spread updates
are order-preserving association-list updates, and `undefined`
interpolated into a template literal becomes the string "undefined".
-/

namespace P2VN

/-! ## JSON values (shape of `unknown` data reaching the tools) -/

mutual
/-- A JSON-like runtime value, used for the `vars` record and for the
values produced by the `player2_get_state` tool.  `nan` mirrors the
JavaScript NaN that `setAffinity` stores when `delta` is undefined. -/
inductive Json where
  | nullVal : Json
  | bool (b : Bool) : Json
  | num (n : Int) : Json
  | nan : Json
  | str (s : String) : Json
  | arr (xs : JsonList) : Json
  | obj (fs : JsonObj) : Json
/-- A list of JSON values (spelled out so recursion stays structural). -/
inductive JsonList where
  | nil : JsonList
  | cons (hd : Json) (tl : JsonList) : JsonList
/-- An ordered JSON object (field insertion order is significant in JS). -/
inductive JsonObj where
  | nil : JsonObj
  | cons (key : String) (val : Json) (tl : JsonObj) : JsonObj
end

/-! ## Blueprint data model (`types/blueprints.ts`) -/

/-- Models `ImageBlueprint`: both fields optional. -/
structure ImageBlueprint where
  prompt : Option String := none
  uri : Option String := none
deriving DecidableEq

/-- Models `ItemBlueprint`. -/
structure ItemBlueprint where
  id : String
  name : String
  description : String
  image : ImageBlueprint
deriving DecidableEq

/-- The `on_complete` effect bundle of a goal. -/
structure GoalOnComplete where
  transition_to : Option String := none
  give_items : List String := []
  unlock_route : Option String := none
deriving DecidableEq

/-- Models `GoalBlueprint`: `character_id` is optional (absent = scene-global). -/
structure GoalBlueprint where
  id : String
  character_id : Option String := none
  description : String
  on_complete : GoalOnComplete
deriving DecidableEq

/-- The `identity` block of a character blueprint. -/
structure CharacterIdentity where
  personality : String
  background : String
  speaking_style : String
deriving DecidableEq

/-- Models `CharacterBlueprint` (sprite/voice data omitted: never read by the core). -/
structure CharacterBlueprint where
  id : String
  name : String
  role : String
  introduction : Option String := none
  identity : CharacterIdentity
deriving DecidableEq

/-- Models `SceneBlueprint` (view/audio omitted: never read by the core). -/
structure SceneBlueprint where
  id : String
  title : String
  prompt : String
  characters : List String
  goals : List GoalBlueprint
  intro : Option String := none
  outro : Option String := none
deriving DecidableEq

/-- Models `GameBlueprint`, reduced to the field the tool dispatcher reads. -/
structure GameBlueprint where
  player_character_id : String
deriving DecidableEq

/-! ## Blueprint registry (`core/BlueprintRegistry.ts`) -/

/-- First-match lookup in an association list (a JS `Map.get`). -/
def assocGet {α : Type} : List (String × α) → String → Option α
  | [], _ => none
  | (k, v) :: rest, key => if k = key then some v else assocGet rest key

/-- The loaded `BlueprintRegistry`: id-keyed maps plus the game blueprint
and the active language code.  `game = none` models the not-yet-loaded
state in which `getGame()` throws. -/
structure Registry where
  characters : List (String × CharacterBlueprint)
  scenes : List (String × SceneBlueprint)
  items : List (String × ItemBlueprint)
  game : Option GameBlueprint
  currentLanguage : String

/-- Models `BlueprintRegistry.getCharacter`: throws "Character id not found". -/
def registryGetCharacter (reg : Registry) (id : String) : Except String CharacterBlueprint :=
  match assocGet reg.characters id with
  | some c => Except.ok c
  | none => Except.error ("Character " ++ id ++ " not found")

/-- Models `BlueprintRegistry.getScene`: throws "Scene id not found". -/
def registryGetScene (reg : Registry) (id : String) : Except String SceneBlueprint :=
  match assocGet reg.scenes id with
  | some s => Except.ok s
  | none => Except.error ("Scene " ++ id ++ " not found")

/-- Models `BlueprintRegistry.getItem`: returns `item || null`, never throws. -/
def registryGetItem (reg : Registry) (id : String) : Option ItemBlueprint :=
  assocGet reg.items id

/-- Models `BlueprintRegistry.getGame`: throws "Game not loaded" when unset. -/
def registryGetGame (reg : Registry) : Except String GameBlueprint :=
  match reg.game with
  | some g => Except.ok g
  | none => Except.error "Game not loaded"

/-! ## Persistent game state and store actions (`stores/gameStore.ts`) -/

/-- The dossier: ordered objectives and ordered notes. -/
structure Dossier where
  objectives : List String
  notes : List String
deriving DecidableEq

/-- The persistent game state held by the Zustand store (`types/state.ts`
plus the store-local `introduced_characters`).  Records become ordered
association lists; an affinity entry of `none` is a stored NaN and a flag
entry of `none` is a stored `undefined`. -/
structure GameState where
  affinity : List (String × Option Int)
  flags : List (String × Option Bool)
  vars : List (String × Json)
  inventory : List ItemBlueprint
  dossier : Dossier
  current_route : String
  current_chapter : String
  current_scene : String
  unlocked_routes : List String
  introduced_characters : List String

/-- JS object-spread update `{...rec, [k]: v}`: replaces an existing key
in place, otherwise appends the new key at the end. -/
def assocSet {α : Type} : List (String × α) → String → α → List (String × α)
  | [], k, v => [(k, v)]
  | (k', v') :: rest, k, v =>
      if k' = k then (k, v) :: rest else (k', v') :: assocSet rest k v

/-- Store action `setAffinity(charId, delta)`:
`affinity[charId] = (affinity[charId] || 0) + delta`.  A missing `delta`
(JS `undefined`) makes the sum NaN, modelled as a `none` entry. -/
def setAffinity (st : GameState) (charId : String) (delta : Option Int) : GameState :=
  let base : Int :=
    match assocGet st.affinity charId with
    | some (some v) => v
    | _ => 0
  { st with affinity := assocSet st.affinity charId (delta.map (fun d => base + d)) }

/-- Store action `setFlag(flagId, value)`. -/
def setFlag (st : GameState) (flagId : String) (value : Option Bool) : GameState :=
  { st with flags := assocSet st.flags flagId value }

/-- Store action `addItem(item)`: appends to the inventory. -/
def addItem (st : GameState) (item : ItemBlueprint) : GameState :=
  { st with inventory := st.inventory ++ [item] }

/-- Store action `updateDossier(type, text)`: appends `text` to the
objectives when `type === 'objective'`, otherwise to the notes, skipping
the append when the list already `includes` the text. -/
def updateDossier (st : GameState) (dtype : String) (text : String) : GameState :=
  let isObjective := dtype = "objective"
  let currentItems := if isObjective then st.dossier.objectives else st.dossier.notes
  if text ∈ currentItems then st
  else if isObjective then
    { st with dossier := { st.dossier with objectives := currentItems ++ [text] } }
  else
    { st with dossier := { st.dossier with notes := currentItems ++ [text] } }

/-- Store action `clearObjectives()`: empties the objectives, keeps notes. -/
def clearObjectives (st : GameState) : GameState :=
  { st with dossier := { st.dossier with objectives := [] } }

/-- Store action `setCurrentScene(route, chapter, scene)`. -/
def setCurrentScene (st : GameState) (route chapter scene : String) : GameState :=
  { st with current_route := route, current_chapter := chapter, current_scene := scene }

/-! ## Dotted-path reads of the store (`ToolExecutor.getState`) -/

/-- Converts a Lean list of JSON values to the `JsonList` form. -/
def toJsonList : List Json → JsonList
  | [] => JsonList.nil
  | x :: rest => JsonList.cons x (toJsonList rest)

/-- Converts an ordered field list to the `JsonObj` form. -/
def toJsonObj : List (String × Json) → JsonObj
  | [] => JsonObj.nil
  | (k, v) :: rest => JsonObj.cons k v (toJsonObj rest)

/-- JSON view of a stored item (as `transformItemBlueprint` shapes it);
`undefined` image fields are dropped, as lookups of them resolve to
`undefined` either way. -/
def itemToJson (item : ItemBlueprint) : Json :=
  Json.obj (toJsonObj
    ([("id", Json.str item.id), ("name", Json.str item.name),
      ("description", Json.str item.description),
      ("image", Json.obj (toJsonObj
        ((match item.image.prompt with
          | some p => [("prompt", Json.str p)]
          | none => []) ++
         (match item.image.uri with
          | some u => [("uri", Json.str u)]
          | none => []))))]))

/-- JSON view of the store's data fields, in declaration order.  Stored
NaN affinities appear as `nan`; flag entries stored as `undefined` are
dropped (a lookup of them resolves to `undefined` either way). -/
def stateToJson (st : GameState) : Json :=
  Json.obj (toJsonObj
    [("affinity", Json.obj (toJsonObj (st.affinity.map (fun kv =>
        (kv.1, match kv.2 with | some v => Json.num v | none => Json.nan))))),
     ("flags", Json.obj (toJsonObj (st.flags.filterMap (fun kv =>
        match kv.2 with | some b => some (kv.1, Json.bool b) | none => none)))),
     ("vars", Json.obj (toJsonObj st.vars)),
     ("inventory", Json.arr (toJsonList (st.inventory.map itemToJson))),
     ("dossier", Json.obj (toJsonObj
        [("objectives", Json.arr (toJsonList (st.dossier.objectives.map Json.str))),
         ("notes", Json.arr (toJsonList (st.dossier.notes.map Json.str)))])),
     ("current_route", Json.str st.current_route),
     ("current_chapter", Json.str st.current_chapter),
     ("current_scene", Json.str st.current_scene),
     ("unlocked_routes", Json.arr (toJsonList (st.unlocked_routes.map Json.str))),
     ("introduced_characters", Json.arr (toJsonList (st.introduced_characters.map Json.str)))])

/-- Splits a character list at a separator character (JS `key.split('.')`). -/
def splitOnChar (sep : Char) : List Char → List (List Char)
  | [] => [[]]
  | c :: rest =>
      let tail := splitOnChar sep rest
      if c = sep then [] :: tail
      else match tail with
        | [] => [[c]]
        | part :: parts => (c :: part) :: parts

/-- Canonical array-index parse: JS `a["2"]` indexes, `a["02"]` does not. -/
def parseIndex (s : List Char) : Option Nat :=
  let rec digitsVal : List Char → Option Nat
    | [] => some 0
    | c :: rest =>
        if '0' ≤ c ∧ c ≤ '9' then
          (digitsVal rest).map (fun v => v * 10 + (c.toNat - '0'.toNat) * 10 ^ rest.length)
        else none
  match s with
  | [] => none
  | ['0'] => some 0
  | '0' :: _ => none
  | _ => digitsVal s

/-- One step of `value?.[part]`: member of an object, canonical index of
an array, `undefined` on everything else. -/
def jsonMember : Json → String → Option Json
  | Json.obj fs, key =>
      let rec look : JsonObj → Option Json
        | JsonObj.nil => none
        | JsonObj.cons k v rest => if k = key then some v else look rest
      look fs
  | Json.arr xs, key =>
      match parseIndex key.data with
      | some n =>
          let rec nth : JsonList → Nat → Option Json
            | JsonList.nil, _ => none
            | JsonList.cons x _, 0 => some x
            | JsonList.cons _ rest, m + 1 => nth rest m
          nth xs n
      | none => none
  | _, _ => none

/-- Walks a split path from a value, stopping at the first `undefined`
(the `if (value === undefined) break` in `getState`'s reduce). -/
def walkPath : Json → List String → Option Json
  | v, [] => some v
  | v, part :: parts =>
      match jsonMember v part with
      | some v' => walkPath v' parts
      | none => none

/-- Models `ToolExecutor.getState(keys)`: resolves each dotted path against the
store state; a missing path maps to `undefined`, not an error. -/
def getStateValues (st : GameState) (keys : List String) : List (String × Option Json) :=
  keys.map (fun key =>
    (key, walkPath (stateToJson st) ((splitOnChar '.' key.data).map (fun p => String.mk p))))

/-! ## Tool dispatcher (`core/ToolExecutor.ts`) -/

/-- The parsed JSON argument bag of a tool call.  Each declared parameter
is `none` when absent from the call or of the wrong shape; `keys = none`
in particular stands for any value on which the `reduce` over
`args.keys as string[]` would throw. -/
structure ToolArgs where
  keys : Option (List String) := none
  character_id : Option String := none
  delta : Option Int := none
  flag_id : Option String := none
  value : Option Bool := none
  sender_id : Option String := none
  receiver_id : Option String := none
  item_id : Option String := none
  type : Option String := none
  text : Option String := none
  result : Option String := none
  summary : Option String := none
deriving DecidableEq

/-- The distinct result-object shapes `ToolExecutor.execute` returns. -/
inductive ExecResult where
  | stateMap (values : List (String × Option Json))
  | success
  | successItem (item_transferred : String)
  | failure (error : String)
  | terminalRes (result : Option String) (summary : Option String)

/-- The `'terminal' in result && result.terminal` check of the turn loop:
only the `player2_end_scene` result object carries the marker. -/
def isTerminal : ExecResult → Bool
  | ExecResult.terminalRes _ _ => true
  | _ => false

/-- The `result`/`summary` fields read off a terminal result. -/
def termInfo : ExecResult → Option String × Option String
  | ExecResult.terminalRes r s => (r, s)
  | _ => (none, none)

/-- The body of `ToolExecutor.execute`'s `switch` (the code inside the
`try`): `Except.error` marks the places where the JS would throw — a
non-array `args.keys` in `player2_get_state`, and `getGame()` before the
game blueprint is loaded in `player2_transfer_item`. -/
def executeBody (reg : Registry) (toolName : String) (args : ToolArgs) (st : GameState) :
    Except String (ExecResult × GameState) :=
  if toolName = "player2_get_state" then
    match args.keys with
    | none => Except.error "args.keys is not an array"
    | some ks => Except.ok (ExecResult.stateMap (getStateValues st ks), st)
  else if toolName = "player2_set_affinity" then
    Except.ok (ExecResult.success,
      setAffinity st (args.character_id.getD "undefined") args.delta)
  else if toolName = "player2_set_flag" then
    Except.ok (ExecResult.success, setFlag st (args.flag_id.getD "undefined") args.value)
  else if toolName = "player2_transfer_item" then
    match args.item_id.bind (registryGetItem reg) with
    | none =>
        Except.ok (ExecResult.failure
          ("Item " ++ args.item_id.getD "undefined" ++ " not found"), st)
    | some item =>
        match reg.game with
        | none => Except.error "Game not loaded"
        | some game =>
            if args.receiver_id = some game.player_character_id then
              Except.ok (ExecResult.successItem item.name, addItem st item)
            else
              Except.ok (ExecResult.failure "Only transfers to player are supported", st)
  else if toolName = "player2_update_dossier" then
    Except.ok (ExecResult.success,
      updateDossier st (args.type.getD "undefined") (args.text.getD "undefined"))
  else if toolName = "player2_end_scene" then
    Except.ok (ExecResult.terminalRes args.result args.summary, st)
  else
    Except.ok (ExecResult.failure "Unknown tool", st)

/-- Models `ToolExecutor.execute(toolName, args)`: the `try`/`catch` wrapper —
anything the body throws is converted to `{success:false, error:msg}`
and the store is left as it was. -/
def execute (reg : Registry) (toolName : String) (args : ToolArgs) (st : GameState) :
    ExecResult × GameState :=
  match executeBody reg toolName args st with
  | Except.ok v => v
  | Except.error msg => (ExecResult.failure msg, st)

/-- The names of the six tools declared by `ToolExecutor.getToolDefinitions`. -/
def toolCatalogNames : List String :=
  ["player2_get_state", "player2_set_affinity", "player2_set_flag",
   "player2_transfer_item", "player2_update_dossier", "player2_end_scene"]

/-! ## Serialization of tool results (`JSON.stringify` of the result) -/

/-- JSON string escaping for the characters our data can contain. -/
def jsonEscapeChars : List Char → List Char
  | [] => []
  | c :: rest =>
      (if c = '"' then ['\\', '"']
       else if c = '\\' then ['\\', '\\']
       else if c = '\n' then ['\\', 'n']
       else if c = '\t' then ['\\', 't']
       else if c = '\r' then ['\\', 'r']
       else [c]) ++ jsonEscapeChars rest

/-- JSON string escaping on `String`. -/
def jsonEscape (s : String) : String := String.mk (jsonEscapeChars s.data)

mutual
/-- Models `JSON.stringify` of a value (NaN prints as `null`). -/
def jsonStringify : Json → String
  | Json.nullVal => "null"
  | Json.nan => "null"
  | Json.bool true => "true"
  | Json.bool false => "false"
  | Json.num n => toString n
  | Json.str s => "\"" ++ jsonEscape s ++ "\""
  | Json.arr xs => "[" ++ jsonListStr xs ++ "]"
  | Json.obj fs => "\x7b" ++ jsonObjStr fs ++ "\x7d"
/-- Comma-joined stringification of an array's elements. -/
def jsonListStr : JsonList → String
  | JsonList.nil => ""
  | JsonList.cons x JsonList.nil => jsonStringify x
  | JsonList.cons x (JsonList.cons y tl) =>
      jsonStringify x ++ "," ++ jsonListStr (JsonList.cons y tl)
/-- Comma-joined stringification of an object's fields. -/
def jsonObjStr : JsonObj → String
  | JsonObj.nil => ""
  | JsonObj.cons k v JsonObj.nil => "\"" ++ jsonEscape k ++ "\":" ++ jsonStringify v
  | JsonObj.cons k v (JsonObj.cons k2 v2 tl) =>
      "\"" ++ jsonEscape k ++ "\":" ++ jsonStringify v ++ "," ++
        jsonObjStr (JsonObj.cons k2 v2 tl)
end

/-- Models `JSON.stringify(result)` for each result shape `execute` produces
(fields holding `undefined` are dropped by `JSON.stringify`). -/
def serializeResult : ExecResult → String
  | ExecResult.stateMap kvs =>
      jsonStringify (Json.obj (toJsonObj
        (kvs.filterMap (fun kv => kv.2.map (fun v => (kv.1, v))))))
  | ExecResult.success => "\x7b\"success\":true\x7d"
  | ExecResult.successItem name =>
      "\x7b\"success\":true,\"item_transferred\":\"" ++ jsonEscape name ++ "\"\x7d"
  | ExecResult.failure msg =>
      "\x7b\"success\":false,\"error\":\"" ++ jsonEscape msg ++ "\"\x7d"
  | ExecResult.terminalRes r s =>
      "\x7b\"terminal\":true" ++
        (match r with
         | some rv => ",\"result\":\"" ++ jsonEscape rv ++ "\""
         | none => "") ++
        (match s with
         | some sv => ",\"summary\":\"" ++ jsonEscape sv ++ "\""
         | none => "") ++ "\x7d"

/-! ## Conversation messages and the inference interface -/

/-- A requested tool call: name plus already-parsed JSON arguments
(`JSON.parse(tc.function.arguments)` succeeded). -/
structure ToolCall where
  id : String
  name : String
  args : ToolArgs
deriving DecidableEq

/-- The assistant message an inference response carries: free text
and/or tool-call requests, either possibly absent. -/
structure AssistantMsg where
  content : Option String := none
  tool_calls : Option (List ToolCall) := none
deriving DecidableEq

/-- A role-tagged transcript message. -/
inductive Msg where
  | system (content : String)
  | user (content : String)
  | assistant (message : AssistantMsg)
  | tool (tool_call_id : String) (content : String)
deriving DecidableEq

/-- The `content` property of a message object (absent on an assistant
message whose `content` is null). -/
def msgContent : Msg → Option String
  | Msg.system c => some c
  | Msg.user c => some c
  | Msg.assistant m => m.content
  | Msg.tool _ c => some c

/-- Models `messages[messages.length - 1].content || ''`. -/
def lastContent (msgs : List Msg) : String :=
  ((msgs.getLast?).bind msgContent).getD ""

/-! ## The turn loop (`GameEngine.chatTurn`) -/

/-- The inner `for (const tc of aiMessage.tool_calls)` loop: executes the
calls strictly in order, appending a tool message per executed call, and
returns from the whole turn the instant a result carries the terminal
marker — later calls in the batch are not executed. -/
def runToolCalls (reg : Registry) : GameState → List ToolCall →
    List Msg × GameState × Option (Option String × Option String)
  | st, [] => ([], st, none)
  | st, tc :: rest =>
      let r := execute reg tc.name tc.args st
      let m := Msg.tool tc.id (serializeResult r.1)
      if isTerminal r.1 then ([m], r.2, some (termInfo r.1))
      else
        let tail := runToolCalls reg r.2 rest
        (m :: tail.1, tail.2.1, tail.2.2)

/-- The sequence of results tool calls produce when executed in order. -/
def execTrace (reg : Registry) : GameState → List ToolCall → List ExecResult
  | _, [] => []
  | st, tc :: rest =>
      let r := execute reg tc.name tc.args st
      r.1 :: execTrace reg r.2 rest

/-- The store state after executing a list of tool calls in order. -/
def execAll (reg : Registry) : GameState → List ToolCall → GameState
  | st, [] => st
  | st, tc :: rest => execAll reg (execute reg tc.name tc.args st).2 rest

/-- The value `chatTurn` resolves with:
`{text, ended, result?, summary?}`. -/
structure ChatResponse where
  text : String
  ended : Bool
  result : Option String := none
  summary : Option String := none
deriving DecidableEq

/-- Outcome of the bounded model-call loop: the response returned to the
caller, the conversation history stored back, and the final store state,
instrumented with the number of inference calls made and whether the
iteration bound ran out. -/
structure ChatOutcome where
  res : ChatResponse
  msgs : List Msg
  st : GameState
  calls : Nat
  exhausted : Bool

/-- The `for (let i = 0; i < maxIterations; i++)` loop of
`GameEngine.chatTurn`, parametric in the inference service
(`svc transcript` is the assistant message `chatCompletion` returns for
that transcript).  Fuel 0 is the fallthrough after the loop: the last
message's content is surfaced and the turn ends non-terminally. -/
def chatLoop (reg : Registry) (svc : List Msg → AssistantMsg) :
    Nat → List Msg → GameState → ChatOutcome
  | 0, msgs, st =>
      { res := { text := lastContent msgs, ended := false },
        msgs := msgs, st := st, calls := 0, exhausted := true }
  | fuel + 1, msgs, st =>
      let am := svc msgs
      let msgs1 := msgs ++ [Msg.assistant am]
      match am.tool_calls with
      | none =>
          { res := { text := am.content.getD "", ended := false },
            msgs := msgs1, st := st, calls := 1, exhausted := false }
      | some calls =>
          let batch := runToolCalls reg st calls
          let msgs2 := msgs1 ++ batch.1
          match batch.2.2 with
          | some info =>
              { res := { text := am.content.getD "", ended := true,
                         result := info.1, summary := info.2 },
                msgs := msgs2, st := batch.2.1, calls := 1, exhausted := false }
          | none =>
              let o := chatLoop reg svc fuel msgs2 batch.2.1
              { o with calls := o.calls + 1 }

/-- Models `GameEngine.chatTurn(message, systemPrompt)`: seeds the transcript
(system prompt only when the history is empty, then the user message)
and runs the loop with `maxIterations = 5`. -/
def chatTurn (reg : Registry) (svc : List Msg → AssistantMsg)
    (history : List Msg) (message systemPrompt : String) (st : GameState) : ChatOutcome :=
  let msgs0 := (if history = [] then [Msg.system systemPrompt] else history) ++
    [Msg.user message]
  chatLoop reg svc 5 msgs0 st

/-! ## Scene run-state and lifecycle (`GameEngine`) -/

/-- Models `CharacterModel`: a participant's blueprint plus the subset of scene
goals whose `character_id` matches it. -/
structure CharacterModel where
  blueprint : CharacterBlueprint
  sceneGoals : List GoalBlueprint
deriving DecidableEq

/-- Models `SceneModel`: the per-scene run-state built by `startScene`
(the `Map` becomes an insertion-ordered association list). -/
structure SceneModel where
  blueprint : SceneBlueprint
  characters : List (String × CharacterModel)
  activeCharacter : String
deriving DecidableEq

/-- The `SceneUpdate` events the engine emits to the presentation layer. -/
inductive SceneUpdate where
  | scene_loaded (scene : SceneModel)
  | typewriter (text : String)
  | dialogue_chunk (speaker_id speaker_name text : String)
  | scene_transition (next_scene : String)
  | scene_ended (result summary : Option String)
  | ai_thinking
deriving DecidableEq

/-- JS truthiness of an optional string (`undefined` and `""` are falsy). -/
def truthyOpt : Option String → Bool
  | some s => !(s = "")
  | none => false

/-- The `sceneBlueprint.characters.find(...)` call of `startScene`: the
first participant whose role is not `player`; a `getCharacter` throw for
an id visited on the way propagates. -/
def findFirstNPC (reg : Registry) : List String → Except String (Option String)
  | [] => Except.ok none
  | cid :: rest =>
      match registryGetCharacter reg cid with
      | Except.error e => Except.error e
      | Except.ok ch =>
          if ch.role ≠ "player" then Except.ok (some cid)
          else findFirstNPC reg rest

/-- The `for (const charId of sceneBlueprint.characters)` loop building
the scene's character map. -/
def buildCharacterModels (reg : Registry) (scene : SceneBlueprint) :
    List String → Except String (List (String × CharacterModel))
  | [] => Except.ok []
  | cid :: rest =>
      match registryGetCharacter reg cid with
      | Except.error e => Except.error e
      | Except.ok ch =>
          match buildCharacterModels reg scene rest with
          | Except.error e => Except.error e
          | Except.ok tail =>
              Except.ok ((cid,
                { blueprint := ch,
                  sceneGoals := scene.goals.filter
                    (fun g => g.character_id == some cid) }) :: tail)

/-- The objective text built for one goal:
`character ? character.name + ": " + description : description`
(`goal.character_id` is tested for truthiness, and `getCharacter` may
throw for an unknown owner id). -/
def renderObjective (reg : Registry) (g : GoalBlueprint) : Except String String :=
  if truthyOpt g.character_id then
    match registryGetCharacter reg (g.character_id.getD "") with
    | Except.error e => Except.error e
    | Except.ok ch => Except.ok (ch.name ++ ": " ++ g.description)
  else Except.ok g.description

/-- The `for (const goal of sceneBlueprint.goals)` loop pushing one
dossier objective per goal. -/
def addObjectives (reg : Registry) : GameState → List GoalBlueprint → Except String GameState
  | st, [] => Except.ok st
  | st, g :: rest =>
      match renderObjective reg g with
      | Except.error e => Except.error e
      | Except.ok text => addObjectives reg (updateDossier st "objective" text) rest

/-- The objective texts of a goal list, for stating what the loading
phase writes. -/
def renderObjectivesList (reg : Registry) : List GoalBlueprint → Except String (List String)
  | [] => Except.ok []
  | g :: rest =>
      match renderObjective reg g with
      | Except.error e => Except.error e
      | Except.ok t =>
          match renderObjectivesList reg rest with
          | Except.error e => Except.error e
          | Except.ok ts => Except.ok (t :: ts)

/-- The loading phase of `GameEngine.startScene` (lines up to the
`scene_loaded` emission): resolve the scene, pick the first NPC as the
active character (fail when there is none), build the character map,
clear the dossier objectives and repopulate them from the scene's goals,
and emit `scene_loaded`.  The rest of `startScene` (intro typewriter and
the conversation) consumes the inference service and is modelled by
`chatTurn`/`endScene`. -/
def startSceneLoading (reg : Registry) (sceneId : String) (st : GameState) :
    Except String (SceneModel × GameState × List SceneUpdate) :=
  match registryGetScene reg sceneId with
  | Except.error e => Except.error e
  | Except.ok sceneBlueprint =>
      match findFirstNPC reg sceneBlueprint.characters with
      | Except.error e => Except.error e
      | Except.ok none => Except.error ("Scene " ++ sceneId ++ " has no NPC characters")
      | Except.ok (some firstNPC) =>
          match buildCharacterModels reg sceneBlueprint sceneBlueprint.characters with
          | Except.error e => Except.error e
          | Except.ok chars =>
              let sceneModel : SceneModel :=
                { blueprint := sceneBlueprint, characters := chars,
                  activeCharacter := firstNPC }
              match addObjectives reg (clearObjectives st) sceneBlueprint.goals with
              | Except.error e => Except.error e
              | Except.ok st2 =>
                  Except.ok (sceneModel, st2, [SceneUpdate.scene_loaded sceneModel])

/-- Models `goals.find((g) => g.on_complete.transition_to)?.on_complete
.transition_to`: the transition target of the first goal whose
`transition_to` is truthy. -/
def findTransitionGoal (scene : SceneBlueprint) : Option String :=
  (scene.goals.find? (fun g => truthyOpt g.on_complete.transition_to)).bind
    (fun g => g.on_complete.transition_to)

/-- The typewriter event `endScene` emits first when the scene has an
outro. -/
def outroEvents (scene : SceneBlueprint) : List SceneUpdate :=
  match scene.outro with
  | some o => [SceneUpdate.typewriter o]
  | none => []

/-- Models `GameEngine.endScene(result, summary)`: reveal the outro if any,
then emit `scene_transition` with the first transition goal's target, or
`scene_ended{result, summary}` when no goal carries one.  The engine
itself touches no store state here — the returned state is the store
exactly as it was when each event is emitted. -/
def endScene (scene : SceneBlueprint) (result summary : Option String) (st : GameState) :
    List SceneUpdate × GameState :=
  (outroEvents scene ++
    (match findTransitionGoal scene with
     | some nextSceneId => [SceneUpdate.scene_transition nextSceneId]
     | none => [SceneUpdate.scene_ended result summary]), st)

/-! ## Presentation handler (`SceneView.handleUpdate`), store effects -/

/-- The game-store effect of `SceneView.handleUpdate` on one event: on
`scene_transition` it writes the pointer via
`setCurrentScene(current_route, current_chapter, next_scene)` (then saves
and restarts the engine on the next scene); no other event touches the
store. -/
def handleUpdate (st : GameState) (u : SceneUpdate) : GameState :=
  match u with
  | SceneUpdate.scene_transition next =>
      setCurrentScene st st.current_route st.current_chapter next
  | _ => st

/-- Store state after the presentation layer has processed a sequence of
emitted events in order. -/
def processUpdates (st : GameState) (evs : List SceneUpdate) : GameState :=
  evs.foldl handleUpdate st

/-! ## String utilities for the prompt assembler -/

/-- The whitespace characters relevant to `String.prototype.trim` here. -/
def isWS (c : Char) : Bool := c = ' ' || c = '\t' || c = '\n' || c = '\r'

/-- JS `.trim()` on a character list: strip whitespace from both ends. -/
def jsTrimList (l : List Char) : List Char :=
  ((l.dropWhile isWS).reverse.dropWhile isWS).reverse

/-- JS `String.prototype.trim`. -/
def jsTrim (s : String) : String := String.mk (jsTrimList s.data)

/-- Whether `needle` is an initial segment of `hay`. -/
def listStartsWith : List Char → List Char → Bool
  | _, [] => true
  | [], _ :: _ => false
  | a :: as, b :: bs => a == b && listStartsWith as bs

/-- Whether `needle` occurs contiguously inside `hay`. -/
def listHasSub : List Char → List Char → Bool
  | [], needle => listStartsWith [] needle
  | a :: as, needle => listStartsWith (a :: as) needle || listHasSub as needle

/-- Substring test on `String`s. -/
def containsSub (hay needle : String) : Bool := listHasSub hay.data needle.data

/-! ## Prompt assembler (`core/PromptGenerator.ts`) -/

/-- The `languageNames` record of `getLanguageInstruction`. -/
def languageNames : List (String × String) :=
  [("en_US", "English"), ("fr_FR", "French"), ("de_DE", "German"),
   ("it_IT", "Italian"), ("pt_BR", "Portuguese"), ("ru_RU", "Russian"),
   ("ja_JP", "Japanese"), ("ko_KR", "Korean"), ("zh_CN", "Chinese (Simplified)"),
   ("zh_TW", "Chinese (Traditional)"), ("ar_SA", "Arabic"), ("hi_IN", "Hindi")]

/-- The imperative directive text, without its leading newline, for a
given language name. -/
def languageDirectiveCore (languageName : String) : String :=
  "**CRITICAL LANGUAGE REQUIREMENT**: You MUST respond ONLY in " ++ languageName ++
    ". Every word of your dialogue, thoughts, and responses must be in " ++
    languageName ++ ". This is MANDATORY."

/-- Models `PromptGenerator.getLanguageInstruction(languageCode)`: resolve the
language name (falling back to English for codes outside the record),
return the empty string for the default `en_US`, and otherwise the
imperative directive. -/
def getLanguageInstruction (languageCode : String) : String :=
  let languageName := (assocGet languageNames languageCode).getD "English"
  if languageCode = "en_US" then ""
  else "\n" ++ languageDirectiveCore languageName

/-- The fixed tool-catalog and behavioural-protocol text of the prompt
template (everything after the speaking-style slot, up to the closing
line's start). -/
def promptToolsText : String :=
  "\n\n**TOOLS AVAILABLE**:\n- player2_get_state: Read affinity, flags, vars" ++
  "\n- player2_set_affinity: Adjust relationship" ++
  "\n- player2_set_flag: Mark story moments" ++
  "\n- player2_transfer_item: Give/take items" ++
  "\n- player2_update_dossier: Update player objectives" ++
  "\n- player2_end_scene: End scene when goal achieved" ++
  "\n\n**INSTRUCTIONS**:\n1. On first turn, call player2_get_state to check context" ++
  "\n2. Respond naturally (1-3 sentences)" ++
  "\n3. Use tools when player makes meaningful choices" ++
  "\n4. Call player2_end_scene when your goals are achieved"

/-- The part of the prompt template literal before the
language-instruction slot (scene header and role line). -/
def promptPre (title name personality : String) : String :=
  "\n**SCENE**: " ++ title ++
    "\n**YOUR ROLE**: You are " ++ name ++ ". " ++ personality ++ "\n"

/-- The part of the prompt template literal after the
language-instruction slot (context, goals, persona, tools, closing). -/
def promptPost (template goalsTextStr background speakingStyle name : String) : String :=
  "\n\n**SCENE CONTEXT**:\n" ++ template ++
    "\n\n**YOUR GOALS IN THIS SCENE**:\n" ++ goalsTextStr ++
    "\n\n**CHARACTER BACKGROUND**:\n" ++ background ++
    "\n\n**SPEAKING STYLE**:\n" ++ speakingStyle ++
    promptToolsText ++
    "\n\nRespond naturally as " ++ name ++ ". Never break character.\n    "

/-- The prompt template literal of `generateSystemPrompt`, before
`.trim()`, with every interpolation slot as a parameter (`name` is
interpolated twice, as in the source). -/
def promptBody (title name personality languageInstruction template goalsTextStr
    background speakingStyle : String) : String :=
  promptPre title name personality ++
    (languageInstruction ++ promptPost template goalsTextStr background speakingStyle name)

/-- Models `characterGoals.map((g) => `- ${g.description}`).join('\n')` for the
goals owned by the speaking character. -/
def goalsText (scene : SceneBlueprint) (characterId : String) : String :=
  String.intercalate "\n"
    ((scene.goals.filter (fun g => g.character_id == some characterId)).map
      (fun g => "- " ++ g.description))

/-- Models `PromptGenerator.generateSystemPrompt(sceneId, characterId)`:
resolves both ids (lookup failures propagate) and assembles the trimmed
prompt text. -/
def generateSystemPrompt (reg : Registry) (sceneId characterId : String) :
    Except String String :=
  match registryGetScene reg sceneId with
  | Except.error e => Except.error e
  | Except.ok scene =>
      match registryGetCharacter reg characterId with
      | Except.error e => Except.error e
      | Except.ok character =>
          Except.ok (jsTrim (promptBody scene.title character.name
            character.identity.personality
            (getLanguageInstruction reg.currentLanguage) scene.prompt
            (goalsText scene characterId) character.identity.background
            character.identity.speaking_style))

/-! ## Concrete fixtures used by counterexamples and witnesses -/

/-- An initial store state sitting on `scene_1`. -/
def st0 : GameState :=
  { affinity := [], flags := [], vars := [], inventory := [],
    dossier := { objectives := [], notes := [] },
    current_route := "route_a", current_chapter := "chapter_1",
    current_scene := "scene_1", unlocked_routes := [], introduced_characters := [] }

/-- A non-player character. -/
def riley : CharacterBlueprint :=
  { id := "riley", name := "Riley", role := "npc",
    identity := { personality := "Curious.", background := "A courier.",
                  speaking_style := "Short sentences." } }

/-- An item blueprint. -/
def coin : ItemBlueprint :=
  { id := "coin", name := "Coin", description := "A brass coin.", image := {} }

/-- A scene with one owned goal and one scene-global goal. -/
def scene1 : SceneBlueprint :=
  { id := "s1", title := "Docks", prompt := "Night at the docks.",
    characters := ["riley"],
    goals := [{ id := "g1", character_id := some "riley", description := "talk",
                on_complete := {} },
              { id := "g2", description := "explore", on_complete := {} }] }

/-- A scene whose two goals render to the same objective text. -/
def sceneDup : SceneBlueprint :=
  { id := "sdup", title := "Docks", prompt := "Night at the docks.",
    characters := ["riley"],
    goals := [{ id := "g1", character_id := some "riley", description := "talk",
                on_complete := {} },
              { id := "g2", character_id := some "riley", description := "talk",
                on_complete := {} }] }

/-- A scene whose only goal transitions to `scene_2`. -/
def sceneTrans : SceneBlueprint :=
  { id := "s1", title := "Docks", prompt := "Night at the docks.",
    characters := ["riley"],
    goals := [{ id := "g1", description := "reach an agreement",
                on_complete := { transition_to := some "scene_2" } }] }

/-- The loaded registry the fixtures run against (default locale). -/
def regA : Registry :=
  { characters := [("riley", riley)],
    scenes := [("s1", scene1), ("sdup", sceneDup), ("strans", sceneTrans)],
    items := [("coin", coin)],
    game := some { player_character_id := "player" },
    currentLanguage := "en_US" }

/-- The same registry with the French locale active. -/
def regFR : Registry := { regA with currentLanguage := "fr_FR" }

/-- The same registry with a locale outside the language-name record. -/
def regES : Registry := { regA with currentLanguage := "es_ES" }

/-! ## C3 — the tool dispatcher never throws -/

/-- C3: for every tool name, argument bag and store state, `execute`
returns a result value: it is the body's value when the body completes,
and the structured `{success:false, error:msg}` with the store untouched
whenever the body throws — no exception escapes the dispatcher. -/
theorem execute_never_throws (reg : Registry) (toolName : String) (args : ToolArgs)
    (st : GameState) :
    ∃ r st', execute reg toolName args st = (r, st') ∧
      (executeBody reg toolName args st = Except.ok (r, st') ∨
       ∃ msg, executeBody reg toolName args st = Except.error msg ∧
         r = ExecResult.failure msg ∧ st' = st) := by
  cases h : executeBody reg toolName args st with
  | ok v =>
      exact ⟨v.1, v.2, by simp [execute, h], Or.inl (by simp [h])⟩
  | error msg =>
      exact ⟨ExecResult.failure msg, st, by simp [execute, h],
        Or.inr ⟨msg, rfl, rfl, rfl⟩⟩

/-! ## C10 — unknown tool names -/

/-- C10: a tool name outside the six declared catalog names yields the
structured `{success:false, error:"Unknown tool"}` result and leaves the
entire persistent game state exactly as it was. -/
theorem execute_unknown_tool (reg : Registry) (toolName : String) (args : ToolArgs)
    (st : GameState) (h : toolName ∉ toolCatalogNames) :
    execute reg toolName args st = (ExecResult.failure "Unknown tool", st) := by
  simp [toolCatalogNames] at h
  obtain ⟨h1, h2, h3, h4, h5, h6⟩ := h
  simp [execute, executeBody, h1, h2, h3, h4, h5, h6]

/-- Witness for C10 at the undeclared name `roll_dice`. -/
theorem execute_unknown_tool_witness :
    "roll_dice" ∉ toolCatalogNames ∧
      execute regA "roll_dice" {} st0 = (ExecResult.failure "Unknown tool", st0) :=
  ⟨by decide, execute_unknown_tool regA "roll_dice" {} st0 (by decide)⟩

/-! ## C5 — transfer-item with a non-player receiver -/

/-- Counterexample to C5 as stated: a transfer to the non-player receiver
`riley` with an item id the registry cannot resolve returns an
item-not-found error, not the unsupported-operation error the claim
promises for every non-player-receiver call. -/
theorem transfer_item_counterexample :
    (({ item_id := some "ghost", receiver_id := some "riley" } : ToolArgs)).receiver_id ≠
        some "player" ∧
    (execute regA "player2_transfer_item"
        { item_id := some "ghost", receiver_id := some "riley" } st0).1 =
      ExecResult.failure "Item ghost not found" ∧
    ExecResult.failure "Item ghost not found" ≠
      ExecResult.failure "Only transfers to player are supported" := by
  refine ⟨by decide, rfl, ?_⟩
  intro h
  injection h with h'
  exact absurd h' (by decide)

/-- C5 (amended): a transfer-item call whose receiver is not the player
character id never mutates the state; it returns the explicit
unsupported-operation error when the item id resolves, and an
item-not-found error when it does not. -/
theorem transfer_item_nonplayer_rejected (reg : Registry) (args : ToolArgs)
    (st : GameState) (game : GameBlueprint) (hg : reg.game = some game)
    (hr : args.receiver_id ≠ some game.player_character_id) :
    (execute reg "player2_transfer_item" args st).2 = st ∧
    (∀ item, args.item_id.bind (registryGetItem reg) = some item →
      (execute reg "player2_transfer_item" args st).1 =
        ExecResult.failure "Only transfers to player are supported") ∧
    (args.item_id.bind (registryGetItem reg) = none →
      (execute reg "player2_transfer_item" args st).1 =
        ExecResult.failure ("Item " ++ args.item_id.getD "undefined" ++ " not found")) := by
  cases hi : args.item_id.bind (registryGetItem reg) with
  | none =>
      have he : execute reg "player2_transfer_item" args st =
          (ExecResult.failure ("Item " ++ args.item_id.getD "undefined" ++ " not found"),
            st) := by
        simp [execute, executeBody, hi]
      exact ⟨by rw [he], fun item hitem => Option.noConfusion hitem, fun _ => by rw [he]⟩
  | some item =>
      have he : execute reg "player2_transfer_item" args st =
          (ExecResult.failure "Only transfers to player are supported", st) := by
        simp [execute, executeBody, hi, hg, hr]
      exact ⟨by rw [he], fun item' _ => by rw [he],
        fun hnone => Option.noConfusion hnone⟩

/-- Witness for the amended C5: transferring the resolvable `coin` to the
non-player receiver `riley` is rejected as unsupported without mutation. -/
theorem transfer_item_nonplayer_witness :
    regA.game = some { player_character_id := "player" } ∧
    (execute regA "player2_transfer_item"
        { item_id := some "coin", receiver_id := some "riley" } st0).2 = st0 ∧
    (execute regA "player2_transfer_item"
        { item_id := some "coin", receiver_id := some "riley" } st0).1 =
      ExecResult.failure "Only transfers to player are supported" := by
  have h := transfer_item_nonplayer_rejected regA
    { item_id := some "coin", receiver_id := some "riley" } st0
    { player_character_id := "player" } rfl (by decide)
  exact ⟨rfl, h.1, h.2.1 coin rfl⟩

/-! ## C6 — dossier insertion -/

/-- The dossier list that `updateDossier type text` targets. -/
def dossierList (st : GameState) (dtype : String) : List String :=
  if dtype = "objective" then st.dossier.objectives else st.dossier.notes

/-- Counterexample to C6 as stated: the claim quantifies over every
dossier state, but starting from a dossier already holding `quest` twice
(such a state is expressible and loadable), inserting `quest` twice more
leaves two entries equal to it, not exactly one. -/
theorem updateDossier_counterexample :
    ((updateDossier (updateDossier
        { st0 with dossier := { objectives := ["quest", "quest"], notes := [] } }
        "objective" "quest") "objective" "quest").dossier.objectives.count "quest") = 2 ∧
      (2 : Nat) ≠ 1 :=
  ⟨by decide, by decide⟩

/-- An insertion is a no-op when the text is already in the targeted
list. -/
lemma updateDossier_mem {st : GameState} {dtype text : String}
    (hm : text ∈ dossierList st dtype) : updateDossier st dtype text = st := by
  by_cases ho : dtype = "objective" <;> simp [dossierList, ho] at hm <;>
    simp [updateDossier, ho, hm]

/-- The targeted list after an insertion: unchanged when the text was
present, appended otherwise. -/
lemma dossierList_updateDossier (st : GameState) (dtype text : String) :
    dossierList (updateDossier st dtype text) dtype =
      (if text ∈ dossierList st dtype then dossierList st dtype
       else dossierList st dtype ++ [text]) := by
  by_cases ho : dtype = "objective" <;> by_cases hm : text ∈ dossierList st dtype <;>
    simp [dossierList, ho] at hm <;> simp [updateDossier, dossierList, ho, hm]

/-- C6 (amended): dossier insertion is idempotent — inserting the same
text twice under the same type is the same state as inserting it once —
and when the text occurred at most once beforehand (as in any state built
by insertions alone), the resulting list holds exactly one entry equal to
it. -/
theorem updateDossier_idempotent (st : GameState) (dtype text : String) :
    updateDossier (updateDossier st dtype text) dtype text =
      updateDossier st dtype text ∧
    ((dossierList st dtype).count text ≤ 1 →
      (dossierList (updateDossier st dtype text) dtype).count text = 1) := by
  constructor
  · by_cases hm : text ∈ dossierList st dtype
    · rw [updateDossier_mem hm]
      exact updateDossier_mem hm
    · have hm2 : text ∈ dossierList (updateDossier st dtype text) dtype := by
        rw [dossierList_updateDossier, if_neg hm]
        exact List.mem_append_right _ (List.mem_singleton.mpr rfl)
      exact updateDossier_mem hm2
  · intro hle
    rw [dossierList_updateDossier]
    by_cases hm : text ∈ dossierList st dtype
    · rw [if_pos hm]
      exact le_antisymm hle (List.count_pos_iff.mpr hm)
    · rw [if_neg hm]
      simp [List.count_append, List.count_eq_zero.mpr hm]

/-! ## C4 / C9 — objective reset on scene load -/

/-- Objective insertions do not touch the notes list. -/
lemma updateDossier_objective_notes (st : GameState) (text : String) :
    (updateDossier st "objective" text).dossier.notes = st.dossier.notes := by
  by_cases hm : text ∈ st.dossier.objectives <;> simp [updateDossier, hm]

/-- Objective insertions act on the objectives list as a
duplicate-suppressing append. -/
lemma updateDossier_objective_objectives (st : GameState) (text : String) :
    (updateDossier st "objective" text).dossier.objectives =
      (if text ∈ st.dossier.objectives then st.dossier.objectives
       else st.dossier.objectives ++ [text]) := by
  by_cases hm : text ∈ st.dossier.objectives <;> simp [updateDossier, hm]

/-- The objective-population loop succeeds exactly when every goal
renders, and then only performs the corresponding insertions. -/
lemma addObjectives_ok (reg : Registry) :
    ∀ (goals : List GoalBlueprint) (st st' : GameState),
      addObjectives reg st goals = Except.ok st' →
      ∃ texts, renderObjectivesList reg goals = Except.ok texts ∧
        st' = texts.foldl (fun s t => updateDossier s "objective" t) st := by
  intro goals
  induction goals with
  | nil =>
      intro st st' h
      simp [addObjectives] at h
      exact ⟨[], rfl, by simp [h]⟩
  | cons g rest ih =>
      intro st st' h
      unfold addObjectives at h
      cases hr : renderObjective reg g with
      | error e => rw [hr] at h; exact absurd h (by simp)
      | ok text =>
          rw [hr] at h
          obtain ⟨ts, hts, hfold⟩ := ih _ _ h
          exact ⟨text :: ts, by simp [renderObjectivesList, hr, hts], by simp [hfold]⟩

/-- Folding duplicate-suppressing appends of a duplicate-free batch over
an accumulator disjoint from it appends the whole batch. -/
lemma foldl_insert_nodup :
    ∀ (texts acc : List String), (acc ++ texts).Nodup →
      texts.foldl (fun l t => if t ∈ l then l else l ++ [t]) acc = acc ++ texts := by
  intro texts
  induction texts with
  | nil => intro acc _; simp
  | cons t rest ih =>
      intro acc hnd
      have hmem : t ∉ acc := by
        intro hin
        have := List.disjoint_of_nodup_append hnd hin
        simp at this
      have hnd2 : ((acc ++ [t]) ++ rest).Nodup := by simpa using hnd
      simp only [List.foldl_cons, if_neg hmem]
      rw [ih (acc ++ [t]) hnd2]
      simp

/-- The objectives list resulting from folding objective insertions. -/
lemma foldl_updateDossier_objectives :
    ∀ (texts : List String) (st : GameState),
      (texts.foldl (fun s t => updateDossier s "objective" t) st).dossier.objectives =
        texts.foldl (fun l t => if t ∈ l then l else l ++ [t]) st.dossier.objectives := by
  intro texts
  induction texts with
  | nil => intro st; rfl
  | cons t rest ih =>
      intro st
      simp only [List.foldl_cons]
      rw [ih, updateDossier_objective_objectives]

/-- Folding objective insertions never touches the notes list. -/
lemma foldl_updateDossier_notes :
    ∀ (texts : List String) (st : GameState),
      (texts.foldl (fun s t => updateDossier s "objective" t) st).dossier.notes =
        st.dossier.notes := by
  intro texts
  induction texts with
  | nil => intro st; rfl
  | cons t rest ih =>
      intro st
      simp only [List.foldl_cons]
      rw [ih, updateDossier_objective_notes]

/-- Destructs a successful `startSceneLoading` run into its pieces. -/
lemma startSceneLoading_ok (reg : Registry) (sceneId : String) (st : GameState)
    (model : SceneModel) (st' : GameState) (evs : List SceneUpdate)
    (h : startSceneLoading reg sceneId st = Except.ok (model, st', evs)) :
    registryGetScene reg sceneId = Except.ok model.blueprint ∧
      addObjectives reg (clearObjectives st) model.blueprint.goals = Except.ok st' := by
  unfold startSceneLoading at h
  split at h
  · exact absurd h (by simp)
  next scene h1 =>
    split at h
    · exact absurd h (by simp)
    · exact absurd h (by simp)
    next npc h2 =>
      split at h
      · exact absurd h (by simp)
      next chars h3 =>
        split at h
        · exact absurd h (by simp)
        next st2 h4 =>
          simp only [Except.ok.injEq, Prod.mk.injEq] at h
          obtain ⟨hm, hst, -⟩ := h
          subst hm
          subst hst
          exact ⟨h1, h4⟩

/-- Counterexample to C4 as stated: a scene whose two goals render to the
same objective text (`sceneDup`) loads with a single dossier objective,
while the claim demands the two-element rendered goal list verbatim. -/
theorem startScene_objectives_counterexample :
    (match startSceneLoading regA "sdup" st0 with
     | Except.ok out => out.2.1.dossier.objectives
     | Except.error _ => []) = ["Riley: talk"] ∧
    renderObjectivesList regA sceneDup.goals =
      Except.ok ["Riley: talk", "Riley: talk"] ∧
    (["Riley: talk"] : List String) ≠ ["Riley: talk", "Riley: talk"] :=
  ⟨rfl, rfl, by decide⟩

/-- C4 (amended): after the loading phase of `startScene`, the dossier's
objective list is exactly the scene's rendered goal list in order — each
goal owned by a character prefixed with that character's name and ": ",
unowned goals bare, with nothing left over from before — provided the
rendered texts are pairwise distinct (duplicate texts are suppressed,
keeping the first occurrence). -/
theorem startScene_objectives_exact (reg : Registry) (sceneId : String) (st : GameState)
    (model : SceneModel) (st' : GameState) (evs : List SceneUpdate)
    (texts : List String)
    (h : startSceneLoading reg sceneId st = Except.ok (model, st', evs))
    (ht : renderObjectivesList reg model.blueprint.goals = Except.ok texts)
    (hnd : texts.Nodup) :
    st'.dossier.objectives = texts := by
  obtain ⟨-, hadd⟩ := startSceneLoading_ok reg sceneId st model st' evs h
  obtain ⟨texts2, ht2, hfold⟩ := addObjectives_ok reg model.blueprint.goals _ _ hadd
  rw [ht] at ht2
  injection ht2 with he
  subst he
  rw [hfold, foldl_updateDossier_objectives]
  have : (clearObjectives st).dossier.objectives = [] := rfl
  rw [this]
  simpa using foldl_insert_nodup texts [] (by simpa using hnd)

/-- A store state carrying a stale objective and an accumulated note. -/
def stalePrev : GameState :=
  { st0 with dossier := { objectives := ["stale"], notes := ["old note"] } }

/-- The run-state, store and events produced by loading `scene1` over
`stalePrev` (the error branch is unreachable for this input). -/
def loadRun : SceneModel × GameState × List SceneUpdate :=
  match startSceneLoading regA "s1" stalePrev with
  | Except.ok v => v
  | Except.error _ => ({ blueprint := scene1, characters := [], activeCharacter := "" },
      stalePrev, [])

/-- Witness for the amended C4: loading `scene1` over a store still
holding a stale objective yields exactly its two rendered goals. -/
theorem startScene_objectives_witness :
    renderObjectivesList regA scene1.goals = Except.ok ["Riley: talk", "explore"] ∧
    (["Riley: talk", "explore"] : List String).Nodup ∧
    loadRun.2.1.dossier.objectives = ["Riley: talk", "explore"] :=
  ⟨rfl, by decide,
    startScene_objectives_exact regA "s1" stalePrev loadRun.1 loadRun.2.1 loadRun.2.2
      ["Riley: talk", "explore"] rfl rfl (by decide)⟩

/-- C9: loading a scene clears only the objectives — for every starting
state from which `startScene`'s loading phase completes, the dossier's
notes list is exactly what it was before the call. -/
theorem startScene_preserves_notes (reg : Registry) (sceneId : String) (st : GameState)
    (model : SceneModel) (st' : GameState) (evs : List SceneUpdate)
    (h : startSceneLoading reg sceneId st = Except.ok (model, st', evs)) :
    st'.dossier.notes = st.dossier.notes := by
  obtain ⟨-, hadd⟩ := startSceneLoading_ok reg sceneId st model st' evs h
  obtain ⟨texts, -, hfold⟩ := addObjectives_ok reg model.blueprint.goals _ _ hadd
  rw [hfold, foldl_updateDossier_notes]
  rfl

/-- Witness for C9: the note accumulated before the scene change
survives the load of `scene1`. -/
theorem startScene_preserves_notes_witness :
    loadRun.2.1.dossier.notes = stalePrev.dossier.notes ∧
      stalePrev.dossier.notes = ["old note"] :=
  ⟨startScene_preserves_notes regA "s1" stalePrev loadRun.1 loadRun.2.1 loadRun.2.2 rfl,
    rfl⟩

/-! ## C2 — scene end, scene transition and the scene pointer -/

/-- Processing the optional outro typewriter event never touches the
store. -/
lemma processUpdates_outro (scene : SceneBlueprint) (st : GameState) :
    List.foldl handleUpdate st (outroEvents scene) = st := by
  cases h : scene.outro <;> simp [outroEvents, h, handleUpdate]

/-- Counterexample to C2 as stated: ending `sceneTrans` (whose only goal
transitions to `scene_2`) emits `scene_transition "scene_2"`, but the
engine has not updated the persistent scene pointer when the event is
emitted — the store it emits against still points at `scene_1`; the
pointer write happens in the presentation handler, in response to the
event. -/
theorem endScene_pointer_counterexample :
    (endScene sceneTrans (some "success") (some "done") st0).1 =
      [SceneUpdate.scene_transition "scene_2"] ∧
    (endScene sceneTrans (some "success") (some "done") st0).2.current_scene =
      "scene_1" ∧
    ("scene_1" : String) ≠ "scene_2" :=
  ⟨rfl, rfl, by decide⟩

/-- C2 (amended): ending a scene leaves the engine-side store untouched;
when some goal carries a truthy `transition_to`, the final emitted event
is `scene_transition` naming the first such goal's target and the
presentation handler then updates the scene pointer to it (in response to
the event, not before it), leaving route and chapter as they were; when
no goal carries one, the final event is `scene_ended{result, summary}`
and processing the events leaves the whole store unchanged. -/
theorem endScene_transition_behaviour (scene : SceneBlueprint)
    (result summary : Option String) (st : GameState) :
    (endScene scene result summary st).2 = st ∧
    (∀ next, findTransitionGoal scene = some next →
      (endScene scene result summary st).1 =
        outroEvents scene ++ [SceneUpdate.scene_transition next] ∧
      (processUpdates st (endScene scene result summary st).1).current_scene = next ∧
      (processUpdates st (endScene scene result summary st).1).current_route =
        st.current_route ∧
      (processUpdates st (endScene scene result summary st).1).current_chapter =
        st.current_chapter) ∧
    (findTransitionGoal scene = none →
      (endScene scene result summary st).1 =
        outroEvents scene ++ [SceneUpdate.scene_ended result summary] ∧
      processUpdates st (endScene scene result summary st).1 = st) := by
  refine ⟨rfl, ?_, ?_⟩
  · intro next hnext
    have hev : (endScene scene result summary st).1 =
        outroEvents scene ++ [SceneUpdate.scene_transition next] := by
      simp [endScene, hnext]
    refine ⟨hev, ?_, ?_, ?_⟩ <;>
      rw [hev] <;>
      simp [processUpdates, List.foldl_append, processUpdates_outro scene st,
        handleUpdate, setCurrentScene]
  · intro hnone
    have hev : (endScene scene result summary st).1 =
        outroEvents scene ++ [SceneUpdate.scene_ended result summary] := by
      simp [endScene, hnone]
    refine ⟨hev, ?_⟩
    rw [hev]
    simp [processUpdates, List.foldl_append]
    have := processUpdates_outro scene st
    simp [processUpdates] at this
    rw [this]
    rfl

/-- Witness for the amended C2 on `sceneTrans`: the transition event
names `scene_2` and the handler moves the pointer there. -/
theorem endScene_transition_witness :
    findTransitionGoal sceneTrans = some "scene_2" ∧
    (endScene sceneTrans (some "success") (some "done") st0).1 =
      outroEvents sceneTrans ++ [SceneUpdate.scene_transition "scene_2"] ∧
    (processUpdates st0
        (endScene sceneTrans (some "success") (some "done") st0).1).current_scene =
      "scene_2" :=
  ⟨rfl,
    ((endScene_transition_behaviour sceneTrans (some "success") (some "done") st0).2.1
      "scene_2" rfl).1,
    ((endScene_transition_behaviour sceneTrans (some "success") (some "done") st0).2.1
      "scene_2" rfl).2.1⟩

/-! ## C1 / C8 — the batched tool loop and the iteration bound -/

/-- A batch with no terminal result runs to the end: the final state is
the in-order fold of the executions and no terminal info is reported. -/
lemma runToolCalls_no_terminal (reg : Registry) :
    ∀ (calls : List ToolCall) (st : GameState),
      (∀ r ∈ execTrace reg st calls, isTerminal r = false) →
      (runToolCalls reg st calls).2.1 = execAll reg st calls ∧
        (runToolCalls reg st calls).2.2 = none := by
  intro calls
  induction calls with
  | nil => intro st _; exact ⟨rfl, rfl⟩
  | cons tc rest ih =>
      intro st hpre
      have hhead : isTerminal (execute reg tc.name tc.args st).1 = false :=
        hpre _ (by simp [execTrace])
      have htail : ∀ r ∈ execTrace reg (execute reg tc.name tc.args st).2 rest,
          isTerminal r = false := by
        intro r hr
        exact hpre r (by simp [execTrace, hr])
      have := ih (execute reg tc.name tc.args st).2 htail
      simp [runToolCalls, hhead, execAll, this.1, this.2]

/-- Executing a batch that extends a terminal-free prefix first runs the
prefix in order and then continues from the resulting state. -/
lemma runToolCalls_append (reg : Registry) :
    ∀ (pre : List ToolCall) (st : GameState) (rest : List ToolCall),
      (∀ r ∈ execTrace reg st pre, isTerminal r = false) →
      runToolCalls reg st (pre ++ rest) =
        ((runToolCalls reg st pre).1 ++ (runToolCalls reg (execAll reg st pre) rest).1,
         (runToolCalls reg (execAll reg st pre) rest).2.1,
         (runToolCalls reg (execAll reg st pre) rest).2.2) := by
  intro pre
  induction pre with
  | nil => intro st rest _; simp [runToolCalls, execAll]
  | cons tc pre' ih =>
      intro st rest hpre
      have hhead : isTerminal (execute reg tc.name tc.args st).1 = false :=
        hpre _ (by simp [execTrace])
      have htail : ∀ r ∈ execTrace reg (execute reg tc.name tc.args st).2 pre',
          isTerminal r = false := by
        intro r hr
        exact hpre r (by simp [execTrace, hr])
      simp only [List.cons_append, runToolCalls, hhead, Bool.false_eq_true, if_false,
        execAll, List.append_eq]
      rw [ih (execute reg tc.name tc.args st).2 rest htail]

/-- C1: when an assistant reply requests a batch whose terminal-free
prefix `pre` is followed by a call `tc` whose result carries the terminal
marker, the batch executes exactly `pre` in order and then `tc` — the
produced tool messages and final state do not depend on the remaining
calls, which are never executed — and the model turn ends immediately
with that result's tag and summary. -/
theorem chatTurn_terminal_short_circuit (reg : Registry)
    (svc : List Msg → AssistantMsg) (fuel : Nat) (msgs : List Msg) (st : GameState)
    (am : AssistantMsg) (pre : List ToolCall) (tc : ToolCall) (rest : List ToolCall)
    (hsvc : svc msgs = am)
    (hcalls : am.tool_calls = some (pre ++ tc :: rest))
    (hpre : ∀ r ∈ execTrace reg st pre, isTerminal r = false)
    (hterm : isTerminal (execute reg tc.name tc.args (execAll reg st pre)).1 = true) :
    runToolCalls reg st (pre ++ tc :: rest) =
      ((runToolCalls reg st pre).1 ++
         [Msg.tool tc.id (serializeResult
           (execute reg tc.name tc.args (execAll reg st pre)).1)],
       (execute reg tc.name tc.args (execAll reg st pre)).2,
       some (termInfo (execute reg tc.name tc.args (execAll reg st pre)).1)) ∧
    chatLoop reg svc (fuel + 1) msgs st =
      { res := { text := am.content.getD "", ended := true,
                 result := (termInfo (execute reg tc.name tc.args
                   (execAll reg st pre)).1).1,
                 summary := (termInfo (execute reg tc.name tc.args
                   (execAll reg st pre)).1).2 },
        msgs := (msgs ++ [Msg.assistant am]) ++ (runToolCalls reg st (pre ++ tc :: rest)).1,
        st := (execute reg tc.name tc.args (execAll reg st pre)).2,
        calls := 1, exhausted := false } := by
  have hstep : runToolCalls reg (execAll reg st pre) (tc :: rest) =
      ([Msg.tool tc.id (serializeResult
          (execute reg tc.name tc.args (execAll reg st pre)).1)],
       (execute reg tc.name tc.args (execAll reg st pre)).2,
       some (termInfo (execute reg tc.name tc.args (execAll reg st pre)).1)) := by
    simp [runToolCalls, hterm]
  have hrun : runToolCalls reg st (pre ++ tc :: rest) =
      ((runToolCalls reg st pre).1 ++
         [Msg.tool tc.id (serializeResult
           (execute reg tc.name tc.args (execAll reg st pre)).1)],
       (execute reg tc.name tc.args (execAll reg st pre)).2,
       some (termInfo (execute reg tc.name tc.args (execAll reg st pre)).1)) := by
    rw [runToolCalls_append reg pre st (tc :: rest) hpre, hstep]
  refine ⟨hrun, ?_⟩
  simp only [chatLoop, hsvc, hcalls, hrun]

/-- The batch of three calls the specification's scripted test uses:
set a flag, end the scene, set another flag. -/
def tcFlagA : ToolCall :=
  { id := "call_1", name := "player2_set_flag",
    args := { flag_id := some "a", value := some true } }

/-- The terminal `end-scene` call of the scripted batch. -/
def tcEnd : ToolCall :=
  { id := "call_2", name := "player2_end_scene",
    args := { result := some "success", summary := some "deal struck" } }

/-- The third call of the scripted batch, which must never run. -/
def tcFlagB : ToolCall :=
  { id := "call_3", name := "player2_set_flag",
    args := { flag_id := some "b", value := some true } }

/-- The assistant reply requesting the scripted three-call batch. -/
def amBatch : AssistantMsg :=
  { content := some "Alright.", tool_calls := some [tcFlagA, tcEnd, tcFlagB] }

/-- An inference service that always requests the scripted three-call
batch. -/
def svcBatch : List Msg → AssistantMsg := fun _ => amBatch

/-- Witness for C1 on the scripted batch: the second call ends the turn
with its tag and summary, and the third flag is never written. -/
theorem chatTurn_terminal_short_circuit_witness :
    runToolCalls regA st0 ([tcFlagA] ++ tcEnd :: [tcFlagB]) =
      ((runToolCalls regA st0 [tcFlagA]).1 ++
         [Msg.tool tcEnd.id (serializeResult
           (execute regA tcEnd.name tcEnd.args (execAll regA st0 [tcFlagA])).1)],
       (execute regA tcEnd.name tcEnd.args (execAll regA st0 [tcFlagA])).2,
       some (termInfo (execute regA tcEnd.name tcEnd.args
         (execAll regA st0 [tcFlagA])).1)) ∧
    chatLoop regA svcBatch (4 + 1) [Msg.user "hi"] st0 =
      { res := { text := amBatch.content.getD "",
                 ended := true,
                 result := (termInfo (execute regA tcEnd.name tcEnd.args
                   (execAll regA st0 [tcFlagA])).1).1,
                 summary := (termInfo (execute regA tcEnd.name tcEnd.args
                   (execAll regA st0 [tcFlagA])).1).2 },
        msgs := ([Msg.user "hi"] ++ [Msg.assistant amBatch]) ++
          (runToolCalls regA st0 ([tcFlagA] ++ tcEnd :: [tcFlagB])).1,
        st := (execute regA tcEnd.name tcEnd.args (execAll regA st0 [tcFlagA])).2,
        calls := 1, exhausted := false } ∧
    assocGet (execute regA tcEnd.name tcEnd.args (execAll regA st0 [tcFlagA])).2.flags
      "b" = none :=
  ⟨(chatTurn_terminal_short_circuit regA svcBatch 4 [Msg.user "hi"] st0 amBatch
      [tcFlagA] tcEnd [tcFlagB] rfl rfl (by decide) (by decide)).1,
   (chatTurn_terminal_short_circuit regA svcBatch 4 [Msg.user "hi"] st0 amBatch
      [tcFlagA] tcEnd [tcFlagB] rfl rfl (by decide) (by decide)).2,
   rfl⟩

/-- The iteration bound and exhaustion behaviour of the model-call loop,
for every fuel value. -/
lemma chatLoop_bound (reg : Registry) (svc : List Msg → AssistantMsg) :
    ∀ (fuel : Nat) (msgs : List Msg) (st : GameState),
      (chatLoop reg svc fuel msgs st).calls ≤ fuel ∧
      ((chatLoop reg svc fuel msgs st).exhausted = true →
        (chatLoop reg svc fuel msgs st).res.text =
          lastContent (chatLoop reg svc fuel msgs st).msgs ∧
        (chatLoop reg svc fuel msgs st).res.ended = false) := by
  intro fuel
  induction fuel with
  | zero => intro msgs st; exact ⟨Nat.le_refl 0, fun _ => ⟨rfl, rfl⟩⟩
  | succ n ih =>
      intro msgs st
      cases hc : (svc msgs).tool_calls with
      | none =>
          constructor
          · simp [chatLoop, hc]
          · intro hex
            simp [chatLoop, hc] at hex
      | some calls =>
          cases hfin : (runToolCalls reg st calls).2.2 with
          | some info =>
              constructor
              · simp [chatLoop, hc, hfin]
              · intro hex
                simp [chatLoop, hc, hfin] at hex
          | none =>
              have hrec := ih (msgs ++ [Msg.assistant (svc msgs)] ++
                (runToolCalls reg st calls).1) (runToolCalls reg st calls).2.1
              constructor
              · simp only [chatLoop, hc, hfin]
                exact Nat.succ_le_succ hrec.1
              · intro hex
                simp only [chatLoop, hc, hfin] at hex ⊢
                exact hrec.2 hex

/-- C8: a conversation turn makes at most 5 inference/tool iterations —
the loop terminates for every service behaviour — and when the bound is
exhausted without a final narrative answer, the turn surfaces the last
message's content as its text and reports the turn as not ended. -/
theorem chatTurn_bounded_iterations (reg : Registry) (svc : List Msg → AssistantMsg)
    (history : List Msg) (message systemPrompt : String) (st : GameState) :
    (chatTurn reg svc history message systemPrompt st).calls ≤ 5 ∧
    ((chatTurn reg svc history message systemPrompt st).exhausted = true →
      (chatTurn reg svc history message systemPrompt st).res.text =
        lastContent (chatTurn reg svc history message systemPrompt st).msgs ∧
      (chatTurn reg svc history message systemPrompt st).res.ended = false) := by
  unfold chatTurn
  exact chatLoop_bound reg svc 5 _ st

/-- An inference service that requests a tool call on every turn and
never ends the scene. -/
def svcLoop : List Msg → AssistantMsg :=
  fun _ => { content := none, tool_calls := some [tcFlagA] }

/-- Witness for C8 against the never-answering service: the bound is hit
after exactly 5 calls and the last message's content is surfaced. -/
theorem chatTurn_bounded_iterations_witness :
    (chatTurn regA svcLoop [] "hi" "sys" st0).exhausted = true ∧
    (chatTurn regA svcLoop [] "hi" "sys" st0).calls ≤ 5 ∧
    (chatTurn regA svcLoop [] "hi" "sys" st0).res.text =
      lastContent (chatTurn regA svcLoop [] "hi" "sys" st0).msgs ∧
    (chatTurn regA svcLoop [] "hi" "sys" st0).res.ended = false :=
  ⟨rfl, (chatTurn_bounded_iterations regA svcLoop [] "hi" "sys" st0).1,
    ((chatTurn_bounded_iterations regA svcLoop [] "hi" "sys" st0).2 rfl).1,
    ((chatTurn_bounded_iterations regA svcLoop [] "hi" "sys" st0).2 rfl).2⟩

/-- Witness for the amended C6 on a dossier that already holds the note
once. -/
theorem updateDossier_idempotent_witness :
    (dossierList { st0 with dossier := { objectives := [], notes := ["met Riley"] } }
        "note").count "met Riley" ≤ 1 ∧
    (dossierList (updateDossier
        { st0 with dossier := { objectives := [], notes := ["met Riley"] } }
        "note" "met Riley") "note").count "met Riley" = 1 :=
  ⟨by decide,
    (updateDossier_idempotent
      { st0 with dossier := { objectives := [], notes := ["met Riley"] } }
      "note" "met Riley").2 (by decide)⟩

/-! ## C7 — the language directive in the system prompt -/

/-- Whether a character list is nonempty and starts with a
non-whitespace character. -/
def headNotWS : List Char → Bool
  | [] => false
  | c :: _ => !isWS c

/-- Since `headNotWS` only looks at the head, it survives appending. -/
lemma headNotWS_append (l1 l2 : List Char) (h : headNotWS l1 = true) :
    headNotWS (l1 ++ l2) = true := by
  cases l1 with
  | nil => simp [headNotWS] at h
  | cons c t => simpa [headNotWS] using h

/-- Dropping leading whitespace from `a ++ (n ++ b)` never eats into `n`
when `n` starts with a non-whitespace character. -/
lemma dropWhile_sandwich :
    ∀ (a n b : List Char), headNotWS n = true →
      ∃ a', (a ++ (n ++ b)).dropWhile isWS = a' ++ (n ++ b) := by
  intro a
  induction a with
  | nil =>
      intro n b hn
      cases n with
      | nil => simp [headNotWS] at hn
      | cons c t =>
          have hc : isWS c = false := by simpa [headNotWS] using hn
          exact ⟨[], by simp [List.dropWhile_cons, hc]⟩
  | cons x a' ih =>
      intro n b hn
      by_cases hx : isWS x = true
      · obtain ⟨a'', ha⟩ := ih n b hn
        exact ⟨a'', by simp [List.dropWhile_cons, hx, ha]⟩
      · exact ⟨x :: a', by simp [List.dropWhile_cons, hx]⟩

/-- A needle laid out inside a list is always a prefix of the layout. -/
lemma listStartsWith_self_append :
    ∀ (n b : List Char), listStartsWith (n ++ b) n = true := by
  intro n
  induction n with
  | nil => intro b; cases b <;> simp [listStartsWith]
  | cons c t ih => intro b; simp [listStartsWith, ih]

/-- A needle laid out inside a list is found by the substring scan. -/
lemma listHasSub_of_append :
    ∀ (a n b : List Char), listHasSub (a ++ (n ++ b)) n = true := by
  intro a
  induction a with
  | nil =>
      intro n b
      cases n with
      | nil => cases b <;> simp [listHasSub, listStartsWith]
      | cons c t =>
          have hsw := listStartsWith_self_append (c :: t) b
          simp only [List.cons_append] at hsw
          simp [listHasSub, hsw]
  | cons x a' ih =>
      intro n b
      simp [listHasSub, ih n b]

/-- Trimming `a ++ (n ++ b)` keeps the needle `n` intact whenever `n`
begins and ends with a non-whitespace character. -/
lemma trim_keeps_sub (a n b : List Char) (h1 : headNotWS n = true)
    (h2 : headNotWS n.reverse = true) :
    listHasSub (jsTrimList (a ++ (n ++ b))) n = true := by
  obtain ⟨a', ha⟩ := dropWhile_sandwich a n b h1
  unfold jsTrimList
  rw [ha]
  have hrev : (a' ++ (n ++ b)).reverse = b.reverse ++ (n.reverse ++ a'.reverse) := by
    simp [List.reverse_append]
  rw [hrev]
  obtain ⟨b', hb⟩ := dropWhile_sandwich b.reverse n.reverse a'.reverse h2
  rw [hb]
  have hrev2 : (b' ++ (n.reverse ++ a'.reverse)).reverse =
      a' ++ (n ++ b'.reverse) := by
    simp [List.reverse_append]
  rw [hrev2]
  exact listHasSub_of_append a' n b'.reverse

/-- Appending strings is appending their underlying character lists. -/
lemma data_append (s t : String) : (s ++ t).data = s.data ++ t.data := rfl

/-- The directive text begins with a non-whitespace character (`*`),
whatever the language name. -/
lemma directiveCore_head (lname : String) :
    headNotWS (languageDirectiveCore lname).data = true := by
  unfold languageDirectiveCore
  rw [data_append, data_append, data_append, data_append]
  apply headNotWS_append
  apply headNotWS_append
  apply headNotWS_append
  apply headNotWS_append
  decide

/-- The directive text ends with a non-whitespace character (`.`),
whatever the language name. -/
lemma directiveCore_last (lname : String) :
    headNotWS (languageDirectiveCore lname).data.reverse = true := by
  unfold languageDirectiveCore
  rw [data_append, data_append, data_append, data_append]
  simp only [List.reverse_append]
  apply headNotWS_append
  decide

/-- C7 (amended): for every resolvable scene id and character id, when
the active locale is the default `en_US` the prompt is assembled with the
empty language-instruction slot — no directive is added; when the active
locale is a non-default code listed in the language-name record, the
generated prompt contains the unambiguous imperative directive that every
word of output must be in that locale's language.  (For non-default codes
outside the record the emitted directive names the fallback English
instead of the locale's language.) -/
theorem prompt_language_directive (reg : Registry) (sceneId characterId : String)
    (scene : SceneBlueprint) (character : CharacterBlueprint)
    (hs : registryGetScene reg sceneId = Except.ok scene)
    (hc : registryGetCharacter reg characterId = Except.ok character) :
    (reg.currentLanguage = "en_US" →
      generateSystemPrompt reg sceneId characterId =
        Except.ok (jsTrim (promptBody scene.title character.name
          character.identity.personality "" scene.prompt (goalsText scene characterId)
          character.identity.background character.identity.speaking_style))) ∧
    (∀ lname, reg.currentLanguage ≠ "en_US" →
      assocGet languageNames reg.currentLanguage = some lname →
      ∀ p, generateSystemPrompt reg sceneId characterId = Except.ok p →
        containsSub p (languageDirectiveCore lname) = true) := by
  have hgen : generateSystemPrompt reg sceneId characterId =
      Except.ok (jsTrim (promptBody scene.title character.name
        character.identity.personality (getLanguageInstruction reg.currentLanguage)
        scene.prompt (goalsText scene characterId) character.identity.background
        character.identity.speaking_style)) := by
    simp [generateSystemPrompt, hs, hc]
  constructor
  · intro hlang
    rw [hgen, hlang]
    have hempty : getLanguageInstruction "en_US" = "" := rfl
    rw [hempty]
  · intro lname hne hlk p hp
    rw [hgen] at hp
    injection hp with hp'
    subst hp'
    have hli : getLanguageInstruction reg.currentLanguage =
        "\n" ++ languageDirectiveCore lname := by
      unfold getLanguageInstruction
      rw [hlk]
      simp [hne]
    rw [hli]
    unfold containsSub jsTrim
    have hnl : ("\n" : String).data = ['\n'] := rfl
    have heq : (promptBody scene.title character.name character.identity.personality
        ("\n" ++ languageDirectiveCore lname) scene.prompt (goalsText scene characterId)
        character.identity.background character.identity.speaking_style).data =
        ((promptPre scene.title character.name character.identity.personality).data ++
            ['\n']) ++
          ((languageDirectiveCore lname).data ++
            (promptPost scene.prompt (goalsText scene characterId)
              character.identity.background character.identity.speaking_style
              character.name).data) := by
      simp [promptBody, data_append, hnl, List.append_assoc]
    rw [heq]
    exact trim_keeps_sub _ _ _ (directiveCore_head lname) (directiveCore_last lname)

/-- The prompt generated for `scene1`/`riley` under the unmapped locale
`es_ES`. -/
def promptES : String :=
  match generateSystemPrompt regES "s1" "riley" with
  | Except.ok p => p
  | Except.error _ => ""

/-- The prompt generated for `scene1`/`riley` under the French locale. -/
def promptFR : String :=
  match generateSystemPrompt regFR "s1" "riley" with
  | Except.ok p => p
  | Except.error _ => ""

set_option maxRecDepth 20000 in
/-- Counterexample to C7 as stated: with the active locale `es_ES` — a
non-default locale, absent from the language-name record — the generated
prompt's directive demands English, not the locale's language (no mention
of Spanish appears anywhere in the prompt). -/
theorem language_directive_counterexample :
    regES.currentLanguage = "es_ES" ∧
    ("es_ES" : String) ≠ "en_US" ∧
    assocGet languageNames "es_ES" = none ∧
    generateSystemPrompt regES "s1" "riley" = Except.ok promptES ∧
    containsSub promptES "You MUST respond ONLY in English" = true ∧
    containsSub promptES "Spanish" = false :=
  ⟨rfl, by decide, rfl, rfl, by decide, by decide⟩

set_option maxRecDepth 20000 in
/-- Witness for the amended C7: the French locale yields a prompt
containing the full French directive, and the default locale assembles
the prompt with the empty instruction slot. -/
theorem prompt_language_directive_witness :
    regFR.currentLanguage ≠ "en_US" ∧
    assocGet languageNames "fr_FR" = some "French" ∧
    containsSub promptFR (languageDirectiveCore "French") = true ∧
    generateSystemPrompt regA "s1" "riley" =
      Except.ok (jsTrim (promptBody scene1.title riley.name riley.identity.personality
        "" scene1.prompt (goalsText scene1 "riley") riley.identity.background
        riley.identity.speaking_style)) :=
  ⟨by decide, rfl,
   (prompt_language_directive regFR "s1" "riley" scene1 riley rfl rfl).2 "French"
     (by decide) rfl promptFR rfl,
   (prompt_language_directive regA "s1" "riley" scene1 riley rfl rfl).1 rfl⟩

end P2VN
